import Mathlib

/-
  Verification development for the external-object (XObject) validator of a
  PDF structure checker (source: pkg/pdfcpu/validateXObject.go).

  The shape validators of validateXObject.go are transcribed directly.
  Generic entry-validation primitives and the dereferencer live outside the
  sampled source; those are modelled from the specification (spec.md,
  sections 4.1-4.3) and are marked "Modelled from the spec" below.
-/

set_option autoImplicit false
set_option maxHeartbeats 1000000

namespace PdfValidate

/-- Document format versions, ordered from the earliest revision. -/
inductive PDFVersion where
  | V10 | V11 | V12 | V13 | V14 | V15 | V16 | V17
deriving DecidableEq

/-- Numeric rank of a version, used for ordering. -/
def PDFVersion.toNat : PDFVersion → Nat
  | .V10 => 0 | .V11 => 1 | .V12 => 2 | .V13 => 3
  | .V14 => 4 | .V15 => 5 | .V16 => 6 | .V17 => 7

/-- Boolean version comparison: a is at most b. -/
def versionLE (a b : PDFVersion) : Bool := Nat.ble a.toNat b.toNat

/-- Validation policy mode: strict or relaxed conformance. -/
inductive ValidationMode where
  | strict | relaxed
deriving DecidableEq

/-- The closed error taxonomy of the validator (spec section 7). -/
inductive ValidationError where
  | MissingRequiredEntry (dictName entryName : String)
  | TypeMismatch (dictName entryName : String)
  | ConstraintViolation (dictName entryName : String)
  | VersionViolation (dictName entryName : String)
  | BrokenReference (dictName entryName : String)
  | ConflictingEntries (dictName : String)
  | MissingDependentEntry (dictName entryName : String)
  | UnknownSubtype (s : String)
  | UnsupportedConstruct (s : String)
  | SchemaViolation (s : String)
  | RecursionLimitExceeded
deriving DecidableEq

/-- Outcome of running a validator: a value, a validation error, divergence
(the source recursion does not terminate within the given fuel), or a
runtime crash (nil-pointer dereference in the source). -/
inductive VRes (α : Type) where
  | ok (a : α)
  | err (e : ValidationError)
  | diverge
  | panic
deriving DecidableEq

/-- Monadic bind on validation outcomes: errors, divergence and crashes
propagate (fail-fast). -/
def VRes.bind {α β : Type} : VRes α → (α → VRes β) → VRes β
  | .ok a, f => f a
  | .err e, _ => .err e
  | .diverge, _ => .diverge
  | .panic, _ => .panic

instance : Monad VRes where
  pure := .ok
  bind := VRes.bind

/-- The object model: tagged union of primitive and composite document
values (spec section 3). -/
inductive PDFObject where
  | null
  | boolean (b : Bool)
  | integer (i : Int)
  | float (q : ℚ)
  | name (s : String)
  | stringLit (s : String)
  | hexLit (s : String)
  | array (elems : List PDFObject)
  | dict (entries : List (String × PDFObject))
  | stream (entries : List (String × PDFObject)) (filters : List String)
  | indirectRef (n : Nat)

/-- A dictionary: association list from name-token keys to values. -/
abbrev PDFDict := List (String × PDFObject)

/-- A stream: its header dictionary plus the names of its filter chain. -/
structure PDFStreamDict where
  entries : PDFDict
  filters : List String

/-- The cross-reference context: object table, declared document version and
validation mode (spec section 3, CrossReferenceContext). -/
structure XRefTable where
  table : Nat → Option PDFObject
  version : PDFVersion
  mode : ValidationMode

/-- Key lookup in a dictionary (the source's dict.Find). -/
def lookupEntry (d : PDFDict) (key : String) : Option PDFObject :=
  (d.find? (fun p => p.1 = key)).map (fun p => p.2)

/-- Modelled from the spec (4.2): single-hop resolution of an indirect
reference through the cross-reference table; a missing target resolves to
the null object; non-references are returned unchanged. -/
def XRefTable.dereference (x : XRefTable) : PDFObject → PDFObject
  | .indirectRef n => (x.table n).getD .null
  | o => o

/-- Modelled from the spec (4.2): the source's DereferenceDict. Resolves to
a dictionary; a null target is the empty signal (no error); any other kind
is a type failure. -/
def XRefTable.dereferenceDict (x : XRefTable) (obj : PDFObject) :
    VRes (Option PDFDict) :=
  match x.dereference obj with
  | .null => .ok none
  | .dict es => .ok (some es)
  | _ => .err (.TypeMismatch "dereferenceDict" "")

/-- Modelled from the spec (4.2): the source's DereferenceStreamDict.
Resolves to a stream; a null target is the empty signal (no error); any
other kind is a type failure. -/
def XRefTable.dereferenceStreamDict (x : XRefTable) (obj : PDFObject) :
    VRes (Option PDFStreamDict) :=
  match x.dereference obj with
  | .null => .ok none
  | .stream es fl => .ok (some ⟨es, fl⟩)
  | _ => .err (.TypeMismatch "dereferenceStreamDict" "")

/-- The source's HasSoleFilterNamed: the filter pipeline consists of exactly
one filter with the given name. -/
def PDFStreamDict.hasSoleFilterNamed (sd : PDFStreamDict) (n : String) : Bool :=
  sd.filters = [n]

/-- Name of the JPEG2000 codec filter (filter.JPX). -/
def filterJPX : String := "JPXDecode"

/-- Name of the CCITT fax codec filter (filter.CCITTFax). -/
def filterCCITTFax : String := "CCITTFaxDecode"

/-- The source's memberOf helper: string membership in a list. -/
def memberOf (s : String) (l : List String) : Bool := l.contains s

/-- The source's REQUIRED constant. -/
def REQUIRED : Bool := true

/-- The source's OPTIONAL constant. -/
def OPTIONAL : Bool := false

/-- The source's ExcludePatternCS constant. -/
def ExcludePatternCS : Bool := true

/-- The source's isAlternateImageStreamDict constant. -/
def isAlternateImageStreamDict : Bool := true

/-- The source's isNoAlternateImageStreamDict constant. -/
def isNoAlternateImageStreamDict : Bool := false

/-- The dict-kind Type entry of a stream header, as a name token if present
(the source's streamDict.Type). -/
def PDFStreamDict.typeName (sd : PDFStreamDict) : Option String :=
  match lookupEntry sd.entries "Type" with
  | some (.name t) => some t
  | _ => none

/-- The dict-kind Subtype entry of a stream header, as a name token if
present (the source's streamDict.Subtype). -/
def PDFStreamDict.subtypeName (sd : PDFStreamDict) : Option String :=
  match lookupEntry sd.entries "Subtype" with
  | some (.name t) => some t
  | _ => none

/-- Modelled from the spec (4.1, 4.3): the generic entry-validation
primitive, parameterized by a kind decoder. Looks up the key; an absent (or
null-resolving) entry fails only when required and version-applicable; a
present entry is dereferenced, kind-checked, checked against the optional
predicate, and version-checked under the mode policy. -/
def validateTypedEntry {α : Type} (decode : PDFObject → Option α)
    (x : XRefTable) (d : PDFDict) (dictName entryName : String)
    (required : Bool) (since : PDFVersion) (pred : Option (α → Bool)) :
    VRes (Option α) :=
  match lookupEntry d entryName with
  | none =>
      if required && versionLE since x.version then
        .err (.MissingRequiredEntry dictName entryName)
      else .ok none
  | some v =>
      match x.dereference v with
      | .null =>
          if required && versionLE since x.version then
            .err (.BrokenReference dictName entryName)
          else .ok none
      | w =>
          match decode w with
          | none => .err (.TypeMismatch dictName entryName)
          | some a =>
              let checkPred : Bool :=
                match pred with
                | some p => p a
                | none => true
              if !checkPred then .err (.ConstraintViolation dictName entryName)
              else
                match x.mode with
                | .relaxed => .ok (some a)
                | .strict =>
                    if versionLE since x.version then .ok (some a)
                    else .err (.VersionViolation dictName entryName)

/-- Kind decoder for integers. -/
def decodeInteger : PDFObject → Option Int
  | .integer i => some i
  | _ => none

/-- Kind decoder for booleans. -/
def decodeBoolean : PDFObject → Option Bool
  | .boolean b => some b
  | _ => none

/-- Kind decoder for name tokens. -/
def decodeName : PDFObject → Option String
  | .name s => some s
  | _ => none

/-- Kind decoder for strings (literal or hex). -/
def decodeString : PDFObject → Option String
  | .stringLit s => some s
  | .hexLit s => some s
  | _ => none

/-- Kind decoder for numbers (integer or real). -/
def decodeNumber : PDFObject → Option ℚ
  | .integer i => some (mkRat i 1)
  | .float q => some q
  | _ => none

/-- Kind decoder for arrays. -/
def decodeArray : PDFObject → Option (List PDFObject)
  | .array l => some l
  | _ => none

/-- Kind decoder for dictionaries. -/
def decodeDict : PDFObject → Option PDFDict
  | .dict es => some es
  | _ => none

/-- Kind decoder for streams. -/
def decodeStream : PDFObject → Option PDFStreamDict
  | .stream es fl => some ⟨es, fl⟩
  | _ => none

/-- Modelled from the spec (4.1): element-wise decoding of an array entry;
each element is dereferenced, null elements are skipped, and a wrong-kind
element is a failure (signalled by none). -/
def decodeElems {α : Type} (x : XRefTable) (decode : PDFObject → Option α) :
    List PDFObject → Option (List α)
  | [] => some []
  | o :: rest =>
      match x.dereference o with
      | .null => decodeElems x decode rest
      | w =>
          match decode w with
          | none => none
          | some a => (decodeElems x decode rest).map (fun l => a :: l)

/-- The integer-entry primitive (the source's validateIntegerEntry). -/
def validateIntegerEntry (x : XRefTable) (d : PDFDict)
    (dictName entryName : String) (required : Bool) (since : PDFVersion)
    (pred : Option (Int → Bool)) : VRes (Option Int) :=
  validateTypedEntry decodeInteger x d dictName entryName required since pred

/-- The boolean-entry primitive (the source's validateBooleanEntry). -/
def validateBooleanEntry (x : XRefTable) (d : PDFDict)
    (dictName entryName : String) (required : Bool) (since : PDFVersion)
    (pred : Option (Bool → Bool)) : VRes (Option Bool) :=
  validateTypedEntry decodeBoolean x d dictName entryName required since pred

/-- The name-entry primitive (the source's validateNameEntry). -/
def validateNameEntry (x : XRefTable) (d : PDFDict)
    (dictName entryName : String) (required : Bool) (since : PDFVersion)
    (pred : Option (String → Bool)) : VRes (Option String) :=
  validateTypedEntry decodeName x d dictName entryName required since pred

/-- The string-entry primitive (the source's validateStringEntry). -/
def validateStringEntry (x : XRefTable) (d : PDFDict)
    (dictName entryName : String) (required : Bool) (since : PDFVersion)
    (pred : Option (String → Bool)) : VRes (Option String) :=
  validateTypedEntry decodeString x d dictName entryName required since pred

/-- The number-entry primitive (the source's validateNumberEntry). -/
def validateNumberEntry (x : XRefTable) (d : PDFDict)
    (dictName entryName : String) (required : Bool) (since : PDFVersion)
    (pred : Option (ℚ → Bool)) : VRes (Option ℚ) :=
  validateTypedEntry decodeNumber x d dictName entryName required since pred

/-- The array-entry primitive (the source's validateArrayEntry); the
predicate sees the raw element list. -/
def validateArrayEntry (x : XRefTable) (d : PDFDict)
    (dictName entryName : String) (required : Bool) (since : PDFVersion)
    (pred : Option (List PDFObject → Bool)) : VRes (Option (List PDFObject)) :=
  validateTypedEntry decodeArray x d dictName entryName required since pred

/-- Modelled from the spec (4.1): array entry whose elements must all decode
to one kind (null elements skipped). Underlies the integer-array,
number-array and string-array primitives. -/
def validateKindArrayEntry {α : Type} (dec : PDFObject → Option α)
    (x : XRefTable) (d : PDFDict) (dictName entryName : String)
    (required : Bool) (since : PDFVersion)
    (pred : Option (List PDFObject → Bool)) :
    VRes (Option (List PDFObject)) := do
  let arrOpt ← validateArrayEntry x d dictName entryName required since pred
  match arrOpt with
  | none => pure none
  | some arr =>
      match decodeElems x dec arr with
      | none => .err (.TypeMismatch dictName entryName)
      | some _ => pure (some arr)

/-- The integer-array primitive (the source's validateIntegerArrayEntry). -/
def validateIntegerArrayEntry (x : XRefTable) (d : PDFDict)
    (dictName entryName : String) (required : Bool) (since : PDFVersion)
    (pred : Option (List PDFObject → Bool)) : VRes (Option (List PDFObject)) :=
  validateKindArrayEntry decodeInteger x d dictName entryName required since pred

/-- The number-array primitive (the source's validateNumberArrayEntry). -/
def validateNumberArrayEntry (x : XRefTable) (d : PDFDict)
    (dictName entryName : String) (required : Bool) (since : PDFVersion)
    (pred : Option (List PDFObject → Bool)) : VRes (Option (List PDFObject)) :=
  validateKindArrayEntry decodeNumber x d dictName entryName required since pred

/-- The string-array primitive (the source's validateStringArrayEntry). -/
def validateStringArrayEntry (x : XRefTable) (d : PDFDict)
    (dictName entryName : String) (required : Bool) (since : PDFVersion)
    (pred : Option (List PDFObject → Bool)) : VRes (Option (List PDFObject)) :=
  validateKindArrayEntry decodeString x d dictName entryName required since pred

/-- The rectangle primitive (the source's validateRectangleEntry): a
number array of exactly four elements. -/
def validateRectangleEntry (x : XRefTable) (d : PDFDict)
    (dictName entryName : String) (required : Bool) (since : PDFVersion)
    (pred : Option (List PDFObject → Bool)) : VRes (Option (List PDFObject)) :=
  validateKindArrayEntry decodeNumber x d dictName entryName required since
    (some (fun a =>
      decide (a.length = 4) &&
        (match pred with
         | some p => p a
         | none => true)))

/-- Modelled from the spec (4.1): the date primitive (the source's
validateDateEntry). Date-format parsing is outside the sampled source; the
value's string kind is checked. -/
def validateDateEntry (x : XRefTable) (d : PDFDict)
    (dictName entryName : String) (required : Bool) (since : PDFVersion) :
    VRes (Option String) :=
  validateTypedEntry decodeString x d dictName entryName required since none

/-- The dictionary-entry primitive (the source's validateDictEntry). -/
def validateDictEntry (x : XRefTable) (d : PDFDict)
    (dictName entryName : String) (required : Bool) (since : PDFVersion)
    (pred : Option (PDFDict → Bool)) : VRes (Option PDFDict) :=
  validateTypedEntry decodeDict x d dictName entryName required since pred

/-- The stream-entry primitive (the source's validateStreamDictEntry). -/
def validateStreamDictEntry (x : XRefTable) (d : PDFDict)
    (dictName entryName : String) (required : Bool) (since : PDFVersion)
    (pred : Option (PDFStreamDict → Bool)) : VRes (Option PDFStreamDict) :=
  validateTypedEntry decodeStream x d dictName entryName required since pred

/-- Modelled from the spec (4.1): the untyped entry primitive (the source's
validateEntry). Returns the dereferenced value; the null object stands for
an absent entry. -/
def validateEntry (x : XRefTable) (d : PDFDict) (dictName entryName : String)
    (required : Bool) (since : PDFVersion) : VRes PDFObject :=
  match lookupEntry d entryName with
  | none =>
      if required && versionLE since x.version then
        .err (.MissingRequiredEntry dictName entryName)
      else .ok .null
  | some v =>
      match x.dereference v with
      | .null =>
          if required && versionLE since x.version then
            .err (.BrokenReference dictName entryName)
          else .ok .null
      | w =>
          match x.mode with
          | .relaxed => .ok w
          | .strict =>
              if versionLE since x.version then .ok w
              else .err (.VersionViolation dictName entryName)

/-- Modelled from the spec (4.2): the source's validateStreamDict. Resolves
an object expected to be a stream; a null target is the empty signal. -/
def validateStreamDict (x : XRefTable) (obj : PDFObject) :
    VRes (Option PDFStreamDict) :=
  match x.dereference obj with
  | .null => .ok none
  | .stream es fl => .ok (some ⟨es, fl⟩)
  | _ => .err (.TypeMismatch "streamDict" "")

/-- Modelled from the spec (4.6): the file-specification primitive (the
source's validateFileSpecEntry). A file spec is a string or a dictionary;
its inner structure is outside the sampled source. -/
def validateFileSpecEntry (x : XRefTable) (d : PDFDict)
    (dictName entryName : String) (required : Bool) (since : PDFVersion) :
    VRes (Option PDFObject) :=
  match lookupEntry d entryName with
  | none =>
      if required && versionLE since x.version then
        .err (.MissingRequiredEntry dictName entryName)
      else .ok none
  | some v =>
      match x.dereference v with
      | .null =>
          if required && versionLE since x.version then
            .err (.BrokenReference dictName entryName)
          else .ok none
      | .stringLit s => .ok (some (.stringLit s))
      | .hexLit s => .ok (some (.hexLit s))
      | .dict es => .ok (some (.dict es))
      | _ => .err (.TypeMismatch dictName entryName)

/-- Modelled from the spec (4.5): the color-space primitive (the source's
validateColorSpaceEntry). A color space is a name or an array; pattern-type
color spaces are rejected when excluded. Full color-space grammar is
outside the sampled source. -/
def validateColorSpaceEntry (x : XRefTable) (d : PDFDict)
    (dictName entryName : String) (required : Bool)
    (excludePatternCS : Bool) : VRes Unit :=
  match lookupEntry d entryName with
  | none =>
      if required then .err (.MissingRequiredEntry dictName entryName)
      else .ok ()
  | some v =>
      match x.dereference v with
      | .null =>
          if required then .err (.BrokenReference dictName entryName)
          else .ok ()
      | .name s =>
          if excludePatternCS && s = "Pattern" then
            .err (.ConstraintViolation dictName entryName)
          else .ok ()
      | .array (.name s :: _) =>
          if excludePatternCS && s = "Pattern" then
            .err (.ConstraintViolation dictName entryName)
          else .ok ()
      | .array _ => .ok ()
      | _ => .err (.TypeMismatch dictName entryName)

/-- Modelled from the spec (4.6): the source's validatePieceInfo. Reports
whether a PieceInfo entry is present; its inner structure is outside the
sampled source. -/
def validatePieceInfo (x : XRefTable) (d : PDFDict)
    (dictName entryName : String) (required : Bool) (since : PDFVersion) :
    VRes Bool :=
  match lookupEntry d entryName with
  | none =>
      if required && versionLE since x.version then
        .err (.MissingRequiredEntry dictName entryName)
      else .ok false
  | some v =>
      match x.dereference v with
      | .null => .ok false
      | .dict _ =>
          match x.mode with
          | .relaxed => .ok true
          | .strict =>
              if versionLE since x.version then .ok true
              else .err (.VersionViolation dictName entryName)
      | _ => .err (.TypeMismatch dictName entryName)

/-- Modelled from the spec (4.5): the source's validateMetadata. An
optional external-metadata stream entry; not descended into. -/
def validateMetadata (x : XRefTable) (d : PDFDict) (required : Bool)
    (since : PDFVersion) : VRes Unit :=
  match lookupEntry d "Metadata" with
  | none =>
      if required && versionLE since x.version then
        .err (.MissingRequiredEntry "metadata" "Metadata")
      else .ok ()
  | some v =>
      match x.dereference v with
      | .null => .ok ()
      | .stream _ _ => .ok ()
      | _ => .err (.TypeMismatch "metadata" "Metadata")

/-- Modelled from the spec (4.5): the source's
validateOptionalContentGroupDict, delegated and not descended into here. -/
def validateOptionalContentGroupDict (x : XRefTable) (d : PDFDict)
    (since : PDFVersion) : VRes Unit :=
  .ok ()

/-- The source's validateEntryOC: an optional dictionary entry delegated to
the optional-content-group validator. -/
def validateEntryOC (x : XRefTable) (d : PDFDict)
    (dictName entryName : String) (required : Bool) (since : PDFVersion) :
    VRes Unit := do
  let dOpt ← validateDictEntry x d dictName entryName required since none
  match dOpt with
  | some d' => validateOptionalContentGroupDict x d' since
  | none => pure ()

/-- Modelled from the spec (4.6): the source's validateOptionalContent. The
entry accepts a content-group or content-membership dictionary,
polymorphic, not descended further. -/
def validateOptionalContent (x : XRefTable) (d : PDFDict)
    (dictName entryName : String) (required : Bool) (since : PDFVersion) :
    VRes Unit :=
  match lookupEntry d entryName with
  | none =>
      if required && versionLE since x.version then
        .err (.MissingRequiredEntry dictName entryName)
      else .ok ()
  | some v =>
      match x.dereference v with
      | .null => .ok ()
      | .dict _ => .ok ()
      | _ => .err (.TypeMismatch dictName entryName)

/-- Modelled from the spec (4.6): the source's validatePageEntryGroup. An
optional transparency-group attributes dictionary whose S entry must be
the name Transparency. -/
def validatePageEntryGroup (x : XRefTable) (d : PDFDict) (required : Bool)
    (since : PDFVersion) : VRes Unit :=
  match lookupEntry d "Group" with
  | none =>
      if required && versionLE since x.version then
        .err (.MissingRequiredEntry "pageEntryGroup" "Group")
      else .ok ()
  | some v =>
      match x.dereference v with
      | .null => .ok ()
      | .dict es =>
          match lookupEntry es "S" with
          | some (.name "Transparency") => .ok ()
          | _ => .err (.ConstraintViolation "groupAttributesDict" "S")
      | _ => .err (.TypeMismatch "pageEntryGroup" "Group")

/-- Modelled from the spec (4.6, 6): the source's validateResourceDict. The
resource-dictionary walk is delegated; its member validation is outside
the shapes proved about here, so a resolvable dictionary is accepted. -/
def validateResourceDict (x : XRefTable) (obj : PDFObject) : VRes Unit :=
  match x.dereference obj with
  | .null => .ok ()
  | .dict _ => .ok ()
  | _ => .err (.TypeMismatch "resourceDict" "")

/-- Source transcription: validateReferenceDictPageEntry. A Page entry must
dereference to an integer or a text string; a null target is accepted. -/
def validateReferenceDictPageEntry (x : XRefTable) (obj : PDFObject) :
    VRes Unit :=
  match x.dereference obj with
  | .null => .ok ()
  | .integer _ => .ok ()
  | .stringLit _ => .ok ()
  | .hexLit _ => .ok ()
  | _ => .err (.TypeMismatch "refDict" "Page")

/-- Source transcription: validateReferenceDict (Reference XObjects). -/
def validateReferenceDict (x : XRefTable) (d : PDFDict) : VRes Unit := do
  let _ ← validateFileSpecEntry x d "refDict" "F" REQUIRED .V10
  match lookupEntry d "Page" with
  | none => .err (.MissingRequiredEntry "refDict" "Page")
  | some obj => do
      validateReferenceDictPageEntry x obj
      let _ ← validateStringArrayEntry x d "refDict" "ID" OPTIONAL .V10
                (some (fun arr => decide (arr.length = 2)))
      pure ()

/-- Source transcription: validateOPIDictV13Part1. -/
def validateOPIDictV13Part1 (x : XRefTable) (d : PDFDict)
    (dictName : String) : VRes Unit := do
  let _ ← validateNameEntry x d dictName "Type" OPTIONAL .V10
            (some (fun s => decide (s = "OPI")))
  let _ ← validateNumberEntry x d dictName "Version" REQUIRED .V10
            (some (fun f => decide (f = mkRat 13 10)))
  let _ ← validateFileSpecEntry x d dictName "F" REQUIRED .V10
  let _ ← validateStringEntry x d dictName "ID" OPTIONAL .V10 none
  let _ ← validateStringEntry x d dictName "Comments" OPTIONAL .V10 none
  let _ ← validateIntegerArrayEntry x d dictName "Size" REQUIRED .V10
            (some (fun a => decide (a.length = 2)))
  let _ ← validateRectangleEntry x d dictName "CropRect" REQUIRED .V10 none
  let _ ← validateRectangleEntry x d dictName "CropFixed" OPTIONAL .V10 none
  let _ ← validateNumberArrayEntry x d dictName "Position" REQUIRED .V10
            (some (fun a => decide (a.length = 8)))
  pure ()

/-- Source transcription: validateOPIDictV13Part2. -/
def validateOPIDictV13Part2 (x : XRefTable) (d : PDFDict)
    (dictName : String) : VRes Unit := do
  let _ ← validateNumberArrayEntry x d dictName "Resolution" OPTIONAL .V10
            (some (fun a => decide (a.length = 2)))
  let _ ← validateNameEntry x d dictName "ColorType" OPTIONAL .V10
            (some (fun s => memberOf s ["Process", "Spot", "Separation"]))
  let _ ← validateArrayEntry x d dictName "Color" OPTIONAL .V10
            (some (fun a => decide (a.length = 5)))
  let _ ← validateNumberEntry x d dictName "Tint" OPTIONAL .V10 none
  let _ ← validateBooleanEntry x d dictName "Overprint" OPTIONAL .V10 none
  let _ ← validateIntegerArrayEntry x d dictName "ImageType" OPTIONAL .V10
            (some (fun a => decide (a.length = 2)))
  let _ ← validateIntegerArrayEntry x d dictName "GrayMap" OPTIONAL .V10 none
  let _ ← validateBooleanEntry x d dictName "Transparency" OPTIONAL .V10 none
  let _ ← validateArrayEntry x d dictName "Tags" OPTIONAL .V10 none
  pure ()

/-- Source transcription: validateOPIDictV13. Note that the version 1.3
rule table contains no Inks entry check. -/
def validateOPIDictV13 (x : XRefTable) (d : PDFDict) : VRes Unit := do
  let dictName := "opiDictV13"
  validateOPIDictV13Part1 x d dictName
  validateOPIDictV13Part2 x d dictName

/-- Source transcription: validateOPIDictInks. A colorant is the name
full_color or registration, or an array that is not descended into. -/
def validateOPIDictInks (x : XRefTable) (obj : PDFObject) : VRes Unit :=
  match x.dereference obj with
  | .null => .ok ()
  | .name colorant =>
      if colorant != "full_color" && colorant != "registration" then
        .err (.ConstraintViolation "opiDictV20" "Inks")
      else .ok ()
  | .array _ => .ok ()
  | _ => .err (.TypeMismatch "opiDictV20" "Inks")

/-- Source transcription: validateOPIDictV20. The Inks entry is consulted
here, in the version 2.0 rule table. -/
def validateOPIDictV20 (x : XRefTable) (d : PDFDict) : VRes Unit := do
  let dictName := "opiDictV20"
  let _ ← validateNameEntry x d dictName "Type" OPTIONAL .V10
            (some (fun s => decide (s = "OPI")))
  let _ ← validateNumberEntry x d dictName "Version" REQUIRED .V10
            (some (fun f => decide (f = mkRat 2 1)))
  let _ ← validateFileSpecEntry x d dictName "F" REQUIRED .V10
  let _ ← validateStringEntry x d dictName "MainImage" OPTIONAL .V10 none
  let _ ← validateArrayEntry x d dictName "Tags" OPTIONAL .V10 none
  let _ ← validateNumberArrayEntry x d dictName "Size" OPTIONAL .V10
            (some (fun arr => decide (arr.length = 2)))
  let _ ← validateRectangleEntry x d dictName "CropRect" OPTIONAL .V10 none
  let _ ← validateBooleanEntry x d dictName "Overprint" OPTIONAL .V10 none
  let _ ← (match lookupEntry d "Inks" with
           | some obj => validateOPIDictInks x obj
           | none => pure ())
  let _ ← validateIntegerArrayEntry x d dictName "IncludedImageDimensions"
            OPTIONAL .V10 (some (fun arr => decide (arr.length = 2)))
  let _ ← validateIntegerEntry x d dictName "IncludedImageQuality" OPTIONAL
            .V10 (some (fun i => decide (1 ≤ i) && decide (i ≤ 3)))
  pure ()

/-- Source transcription: validateOPIVersionDict. Exactly one entry, keyed
1.3 or 2.0; a null-resolving value is accepted; otherwise the value is a
dict checked by the version-specific rule table. -/
def validateOPIVersionDict (x : XRefTable) (d : PDFDict) : VRes Unit :=
  if d.length ≠ 1 then
    .err (.SchemaViolation "validateOPIVersionDict: exactly one entry keyed 1.3 or 2.0")
  else
    match d with
    | [(opiVersion, obj)] =>
        if !(memberOf opiVersion ["1.3", "2.0"]) then
          .err (.SchemaViolation "validateOPIVersionDict: invalid OPI version")
        else do
          let dOpt ← x.dereferenceDict obj
          match dOpt with
          | none => pure ()
          | some d' =>
              if opiVersion = "1.3" then validateOPIDictV13 x d'
              else validateOPIDictV20 x d'
    | _ =>
        .err (.SchemaViolation "validateOPIVersionDict: exactly one entry keyed 1.3 or 2.0")

/-- Source transcription: validateEntryOPI. -/
def validateEntryOPI (x : XRefTable) (d : PDFDict)
    (dictName entryName : String) (required : Bool) (since : PDFVersion) :
    VRes Unit := do
  let dOpt ← validateDictEntry x d dictName entryName required since none
  match dOpt with
  | some d' => validateOPIVersionDict x d'
  | none => pure ()

/-- Source transcription: validateMaskStreamDict, parameterized by the
recursive image validator. The mask stream's Type, when present, must be
XObject, its Subtype must be Image, and the stream is then validated as a
full image object. -/
def validateMaskStreamDictF
    (recurse : XRefTable → PDFStreamDict → Bool → VRes Unit)
    (x : XRefTable) (sd : PDFStreamDict) : VRes Unit :=
  let badType : Bool :=
    match sd.typeName with
    | some t => t != "XObject"
    | none => false
  if badType then .err (.TypeMismatch "maskStreamDict" "Type")
  else
    match sd.subtypeName with
    | some st =>
        if st != "Image" then .err (.TypeMismatch "maskStreamDict" "Subtype")
        else recurse x sd isNoAlternateImageStreamDict
    | none => .err (.TypeMismatch "maskStreamDict" "Subtype")

/-- Source transcription: validateMaskEntry, parameterized by the recursive
image validator. The value is a stream (explicit masking, validated as an
image), an array (color-key masking, no descent) or a type failure. -/
def validateMaskEntryF
    (recurse : XRefTable → PDFStreamDict → Bool → VRes Unit)
    (x : XRefTable) (d : PDFDict) (dictName entryName : String)
    (required : Bool) (since : PDFVersion) : VRes Unit := do
  let obj ← validateEntry x d dictName entryName required since
  match obj with
  | .null => pure ()
  | .stream es fl => validateMaskStreamDictF recurse x ⟨es, fl⟩
  | .array _ => pure ()
  | _ => .err (.TypeMismatch dictName entryName)

/-- Source transcription: the loop body of validateAlternateImageStreamDicts
for one array element; a null-resolving element is skipped. -/
def validateAlternateElemF
    (recurse : XRefTable → PDFStreamDict → Bool → VRes Unit)
    (x : XRefTable) (obj : PDFObject) : VRes Unit := do
  let sdOpt ← validateStreamDict x obj
  match sdOpt with
  | none => pure ()
  | some sd => recurse x sd isAlternateImageStreamDict

/-- Source transcription: the element loop of
validateAlternateImageStreamDicts (fail-fast left-to-right walk). -/
def validateAlternatesLoopF
    (recurse : XRefTable → PDFStreamDict → Bool → VRes Unit)
    (x : XRefTable) : List PDFObject → VRes Unit
  | [] => .ok ()
  | o :: rest => do
      validateAlternateElemF recurse x o
      validateAlternatesLoopF recurse x rest

/-- Source transcription: validateAlternateImageStreamDicts, parameterized
by the recursive image validator. -/
def validateAlternateImageStreamDictsF
    (recurse : XRefTable → PDFStreamDict → Bool → VRes Unit)
    (x : XRefTable) (d : PDFDict) (dictName entryName : String)
    (required : Bool) (since : PDFVersion) : VRes Unit := do
  let arrOpt ← validateArrayEntry x d dictName entryName required since none
  match arrOpt with
  | none =>
      if required then .err (.MissingRequiredEntry dictName entryName)
      else pure ()
  | some arr => validateAlternatesLoopF recurse x arr

/-- Source transcription: validateImageStreamDictPart1. Width and Height
are required integers; ImageMask is an optional boolean; ColorSpace is
checked only for non-masks, required unless the sole filter is JPX or (in
relaxed mode) CCITTFax, and never a pattern color space. -/
def validateImageStreamDictPart1 (x : XRefTable) (sd : PDFStreamDict)
    (dictName : String) : VRes Bool := do
  let d := sd.entries
  let _ ← validateIntegerEntry x d dictName "Width" REQUIRED .V10 none
  let _ ← validateIntegerEntry x d dictName "Height" REQUIRED .V10 none
  let imageMask ← validateBooleanEntry x d dictName "ImageMask" OPTIONAL .V10 none
  let isImageMask : Bool := imageMask == some true
  if isImageMask then
    pure true
  else do
    let required : Bool :=
      if sd.hasSoleFilterNamed filterJPX then OPTIONAL
      else if sd.hasSoleFilterNamed filterCCITTFax &&
                x.mode == ValidationMode.relaxed then OPTIONAL
      else REQUIRED
    validateColorSpaceEntry x d dictName "ColorSpace" required ExcludePatternCS
    pure false

/-- Source transcription: validateImageStreamDictPart2, parameterized by
the recursive image validator. BitsPerComponent is required unless the
sole filter is JPX or the object is an image mask, and must equal 1 for
image masks; the Mask entry is checked only for non-masks; the Alternates
entry is checked only when the object is not itself an alternate. -/
def validateImageStreamDictPart2F
    (recurse : XRefTable → PDFStreamDict → Bool → VRes Unit)
    (x : XRefTable) (sd : PDFStreamDict) (dictName : String)
    (isImageMask isAlternate : Bool) : VRes Unit := do
  let d := sd.entries
  let required : Bool :=
    if sd.hasSoleFilterNamed filterJPX || isImageMask then OPTIONAL
    else REQUIRED
  let validateBPC : Option (Int → Bool) :=
    if isImageMask then some (fun i => decide (i = 1)) else none
  let _ ← validateIntegerEntry x d dictName "BitsPerComponent" required .V10
            validateBPC
  let _ ← validateNameEntry x d dictName "Intent" OPTIONAL .V11
            (some (fun s => memberOf s
              ["AbsoluteColorimetric", "RelativeColorimetric", "Saturation",
               "Perceptual"]))
  if !isImageMask then
    validateMaskEntryF recurse x d dictName "Mask" OPTIONAL .V13
  let _ ← validateNumberArrayEntry x d dictName "Decode" OPTIONAL .V10 none
  let _ ← validateBooleanEntry x d dictName "Interpolate" OPTIONAL .V10 none
  if !isAlternate then
    validateAlternateImageStreamDictsF recurse x d dictName "Alternates"
      OPTIONAL .V13
  pure ()

/-- Source transcription: validateImageStreamDict, with an explicit fuel
bound on the recursion depth (the source recursion is unbounded; exhausted
fuel yields the diverge outcome). -/
def validateImageStreamDict : Nat → XRefTable → PDFStreamDict → Bool → VRes Unit
  | 0, _, _, _ => .diverge
  | fuel + 1, x, sd, isAlternate => do
      let d := sd.entries
      let dictName := "imageStreamDict"
      let isImageMask ← validateImageStreamDictPart1 x sd dictName
      validateImageStreamDictPart2F
        (fun x' sd' alt' => validateImageStreamDict fuel x' sd' alt')
        x sd dictName isImageMask isAlternate
      let sinceVersion :=
        if x.mode == ValidationMode.relaxed then PDFVersion.V13
        else PDFVersion.V14
      let sdOpt ← validateStreamDictEntry x d dictName "SMask" OPTIONAL
                    sinceVersion none
      let _ ← (match sdOpt with
               | some sd' =>
                   validateImageStreamDict fuel x sd' isNoAlternateImageStreamDict
               | none => pure ())
      let _ ← validateIntegerEntry x d dictName "SMaskInData" OPTIONAL .V10
                (some (fun i => decide (0 ≤ i) && decide (i ≤ 2)))
      let _ ← validateNameEntry x d dictName "Name"
                (x.version == PDFVersion.V10) .V10 none
      let _ ← validateIntegerEntry x d dictName "StructParent" OPTIONAL .V13 none
      let _ ← validateStringEntry x d dictName "ID" OPTIONAL .V13 none
      validateEntryOPI x d dictName "OPI" OPTIONAL .V12
      validateMetadata x d OPTIONAL .V14
      validateEntryOC x d dictName "OC" OPTIONAL .V15

/-- Source transcription: validateMaskStreamDict at a given fuel. -/
def validateMaskStreamDict (fuel : Nat) (x : XRefTable) (sd : PDFStreamDict) :
    VRes Unit :=
  validateMaskStreamDictF (validateImageStreamDict fuel) x sd

/-- Source transcription: validateMaskEntry at a given fuel. -/
def validateMaskEntry (fuel : Nat) (x : XRefTable) (d : PDFDict)
    (dictName entryName : String) (required : Bool) (since : PDFVersion) :
    VRes Unit :=
  validateMaskEntryF (validateImageStreamDict fuel) x d dictName entryName
    required since

/-- Source transcription: one Alternates element at a given fuel. -/
def validateAlternateElem (fuel : Nat) (x : XRefTable) (obj : PDFObject) :
    VRes Unit :=
  validateAlternateElemF (validateImageStreamDict fuel) x obj

/-- Source transcription: validateAlternateImageStreamDicts at a given
fuel. -/
def validateAlternateImageStreamDicts (fuel : Nat) (x : XRefTable)
    (d : PDFDict) (dictName entryName : String) (required : Bool)
    (since : PDFVersion) : VRes Unit :=
  validateAlternateImageStreamDictsF (validateImageStreamDict fuel) x d
    dictName entryName required since

/-- Source transcription: validateImageStreamDictPart2 at a given fuel. -/
def validateImageStreamDictPart2 (fuel : Nat) (x : XRefTable)
    (sd : PDFStreamDict) (dictName : String) (isImageMask isAlternate : Bool) :
    VRes Unit :=
  validateImageStreamDictPart2F (validateImageStreamDict fuel) x sd dictName
    isImageMask isAlternate

/-- Source transcription: validateFormStreamDictPart1. -/
def validateFormStreamDictPart1 (x : XRefTable) (sd : PDFStreamDict)
    (dictName : String) : VRes Unit := do
  let d := sd.entries
  let _ ← validateIntegerEntry x d dictName "FormType" OPTIONAL .V10
            (some (fun i => decide (i = 1)))
  let _ ← validateRectangleEntry x d dictName "BBox" REQUIRED .V10 none
  let _ ← validateNumberArrayEntry x d dictName "Matrix" OPTIONAL .V10
            (some (fun arr => decide (arr.length = 6)))
  let _ ← (match lookupEntry d "Resources" with
           | some obj => validateResourceDict x obj
           | none => pure ())
  validatePageEntryGroup x d OPTIONAL .V14
  let dOpt ← validateDictEntry x d dictName "Ref" OPTIONAL .V14 none
  let _ ← (match dOpt with
           | some rd => validateReferenceDict x rd
           | none => pure ())
  validateMetadata x d OPTIONAL .V14

/-- Source transcription: validateFormStreamDictPart2. PieceInfo makes
LastModified required; StructParent and StructParents are mutually
exclusive. -/
def validateFormStreamDictPart2 (x : XRefTable) (d : PDFDict)
    (dictName : String) : VRes Unit := do
  let hasPieceInfo ← validatePieceInfo x d dictName "PieceInfo" OPTIONAL .V13
  let lm ← validateDateEntry x d dictName "LastModified" OPTIONAL .V13
  if hasPieceInfo && lm == none then
    .err (.MissingDependentEntry dictName "LastModified")
  else do
    let sp ← validateIntegerEntry x d dictName "StructParent" OPTIONAL .V13 none
    let sps ← validateIntegerEntry x d dictName "StructParents" OPTIONAL .V13 none
    if sp != none && sps != none then
      .err (.ConflictingEntries dictName)
    else do
      validateEntryOPI x d dictName "OPI" OPTIONAL .V12
      validateOptionalContent x d dictName "OC" OPTIONAL .V15
      let required : Bool := x.version == PDFVersion.V10
      let _ ← validateNameEntry x d dictName "Name" required .V10 none
      pure ()

/-- Source transcription: validateFormStreamDict. -/
def validateFormStreamDict (x : XRefTable) (sd : PDFStreamDict) : VRes Unit := do
  let dictName := "formStreamDict"
  validateFormStreamDictPart1 x sd dictName
  validateFormStreamDictPart2 x sd.entries dictName

/-- Source transcription: validateXObjectStreamDict, the external-object
entry point. The guard after dereferencing checks the original object, not
the dereferenced stream, so a nil stream with a non-nil input reaches the
header access and crashes. -/
def validateXObjectStreamDict (fuel : Nat) (x : XRefTable) (obj : PDFObject) :
    VRes Unit := do
  let sdOpt ← x.dereferenceStreamDict obj
  match obj with
  | .null => pure ()
  | _ =>
      match sdOpt with
      | none => VRes.panic
      | some sd => do
          let dictName := "xObjectStreamDict"
          let d := sd.entries
          let _ ← validateNameEntry x d dictName "Type" OPTIONAL .V10
                    (some (fun s => decide (s = "XObject")))
          let required : Bool :=
            match x.mode with
            | .relaxed => OPTIONAL
            | .strict => REQUIRED
          let subtype ← validateNameEntry x d dictName "Subtype" required .V10 none
          match subtype with
          | none =>
              match lookupEntry d "BBox" with
              | some _ => validateFormStreamDict x sd
              | none =>
                  validateImageStreamDict fuel x sd isNoAlternateImageStreamDict
          | some st =>
              if st = "Form" then validateFormStreamDict x sd
              else if st = "Image" then
                validateImageStreamDict fuel x sd isNoAlternateImageStreamDict
              else if st = "PS" then
                .err (.UnsupportedConstruct "PS")
              else .err (.UnknownSubtype st)

/-! Helper lemmas about the outcome monad and the version order. -/

@[simp] theorem vres_bind_eq {α β : Type} (m : VRes α) (f : α → VRes β) :
    m >>= f = VRes.bind m f := rfl

@[simp] theorem vres_pure_eq {α : Type} (a : α) :
    (pure a : VRes α) = VRes.ok a := rfl

@[simp] theorem vres_bind_ok {α β : Type} (a : α) (f : α → VRes β) :
    VRes.bind (.ok a) f = f a := rfl

@[simp] theorem vres_bind_err {α β : Type} (e : ValidationError)
    (f : α → VRes β) : VRes.bind (.err e) f = .err e := rfl

@[simp] theorem vres_bind_diverge {α β : Type} (f : α → VRes β) :
    VRes.bind .diverge f = .diverge := rfl

@[simp] theorem vres_bind_panic {α β : Type} (f : α → VRes β) :
    VRes.bind .panic f = .panic := rfl

@[simp] theorem versionLE_V10_true (v : PDFVersion) :
    versionLE .V10 v = true := by
  cases v <;> rfl

/-- A fail-fast loop over alternates succeeds when every element check
succeeds. -/
theorem alternatesLoop_ok
    (recurse : XRefTable → PDFStreamDict → Bool → VRes Unit) (x : XRefTable) :
    ∀ l : List PDFObject,
      (∀ o ∈ l, validateAlternateElemF recurse x o = .ok ()) →
      validateAlternatesLoopF recurse x l = .ok ()
  | [], _ => rfl
  | o :: rest, h => by
      have h1 : validateAlternateElemF recurse x o = .ok () :=
        h o (List.mem_cons_self o rest)
      have h2 : validateAlternatesLoopF recurse x rest = .ok () :=
        alternatesLoop_ok recurse x rest
          (fun o' ho' => h o' (List.mem_cons_of_mem o ho'))
      simp [validateAlternatesLoopF, h1, h2]

/-! Concrete documents used by witnesses and counterexamples. -/

/-- A cross-reference context with an empty table, the latest version and
strict mode. -/
def xStd : XRefTable := ⟨fun _ => none, .V17, .strict⟩

/-- A cross-reference context like xStd but in relaxed mode. -/
def xRelaxed : XRefTable := ⟨fun _ => none, .V17, .relaxed⟩

/-- Header entries of an image stream whose Mask entry is an indirect
reference back to the stream itself (object number 1). -/
def cyclicMaskEntries : PDFDict :=
  [("Subtype", .name "Image"), ("Width", .integer 1),
   ("Height", .integer 1), ("ColorSpace", .name "DeviceGray"),
   ("BitsPerComponent", .integer 8), ("Mask", .indirectRef 1)]

/-- A cross-reference table in which object 1 is the self-masking image
stream. -/
def xref1 : XRefTable :=
  ⟨fun n => if n = 1 then some (.stream cyclicMaskEntries []) else none,
   .V17, .strict⟩

/-- The self-masking image stream itself. -/
def sd1 : PDFStreamDict := ⟨cyclicMaskEntries, []⟩

/-- C1: an image object whose Mask resolves back to the object being
validated does not terminate with RecursionLimitExceeded; the validation
walk recurses without bound (for every recursion budget the walk is still
running), i.e. the source loops until the call stack overflows. The claimed
guard does not exist in the code. -/
theorem maskSelfReferenceDiverges :
    ∀ fuel, validateImageStreamDict fuel xref1 sd1 false = VRes.diverge := by
  intro fuel
  induction fuel with
  | zero => rfl
  | succ n ih =>
      have ih' : validateImageStreamDict n
          ⟨fun k => if k = 1 then
              some (.stream [("Subtype", .name "Image"), ("Width", .integer 1),
                ("Height", .integer 1), ("ColorSpace", .name "DeviceGray"),
                ("BitsPerComponent", .integer 8), ("Mask", .indirectRef 1)] [])
            else none, .V17, .strict⟩
          ⟨[("Subtype", .name "Image"), ("Width", .integer 1),
            ("Height", .integer 1), ("ColorSpace", .name "DeviceGray"),
            ("BitsPerComponent", .integer 8), ("Mask", .indirectRef 1)], []⟩
          false = VRes.diverge := ih
      simp [validateImageStreamDict, validateImageStreamDictPart1,
        validateImageStreamDictPart2F, validateMaskEntryF,
        validateMaskStreamDictF, validateEntry, validateIntegerEntry,
        validateBooleanEntry, validateNameEntry, validateTypedEntry,
        validateColorSpaceEntry, lookupEntry, XRefTable.dereference,
        decodeInteger, decodeBoolean, decodeName,
        PDFStreamDict.hasSoleFilterNamed, PDFStreamDict.typeName,
        PDFStreamDict.subtypeName, versionLE, PDFVersion.toNat, memberOf,
        filterJPX, filterCCITTFax, xref1, sd1, cyclicMaskEntries, ih',
        REQUIRED, OPTIONAL, ExcludePatternCS, isNoAlternateImageStreamDict]

/-- An OPI 1.3 dict carrying all required 1.3 entries plus an Inks entry
holding a name outside the restricted vocabulary. -/
def opi13WithBogusInks : PDFDict :=
  [("Version", .float (mkRat 13 10)),
   ("F", .stringLit "proxy.eps"),
   ("Size", .array [.integer 1, .integer 1]),
   ("CropRect", .array [.integer 0, .integer 0, .integer 1, .integer 1]),
   ("Position", .array [.integer 0, .integer 0, .integer 0, .integer 0,
     .integer 0, .integer 0, .integer 0, .integer 0]),
   ("Inks", .name "bogus")]

/-- C2 counterexample: under the 1.3 rule table an Inks entry holding an
unrestricted name is accepted (the 1.3 table never consults Inks), so the
claim that the 1.3 table restricts Inks fails at this input. -/
theorem opi13InksIgnoredCounterexample :
    validateOPIVersionDict xStd [("1.3", .dict opi13WithBogusInks)] =
      .ok () := rfl

/-- C2 amended: an OPI entry value must be a dict of exactly one entry
keyed 1.3 or 2.0 (else SchemaViolation), dispatched to the 1.3- or
2.0-specific rule table; it is the 2.0 table (not the 1.3 table) that
requires an Inks entry, when present, to be the name full_color or
registration or an array that is not descended into. -/
theorem opiVersionDictAmended :
    (∀ (x : XRefTable) (d : PDFDict), d.length ≠ 1 →
        validateOPIVersionDict x d =
          .err (.SchemaViolation
            "validateOPIVersionDict: exactly one entry keyed 1.3 or 2.0")) ∧
    (∀ (x : XRefTable) (k : String) (v : PDFObject), k ≠ "1.3" → k ≠ "2.0" →
        validateOPIVersionDict x [(k, v)] =
          .err (.SchemaViolation "validateOPIVersionDict: invalid OPI version")) ∧
    (∀ (x : XRefTable) (v : PDFObject) (d' : PDFDict),
        x.dereferenceDict v = .ok (some d') →
        validateOPIVersionDict x [("1.3", v)] = validateOPIDictV13 x d') ∧
    (∀ (x : XRefTable) (v : PDFObject) (d' : PDFDict),
        x.dereferenceDict v = .ok (some d') →
        validateOPIVersionDict x [("2.0", v)] = validateOPIDictV20 x d') ∧
    (∀ (x : XRefTable) (s : String), s ≠ "full_color" → s ≠ "registration" →
        validateOPIDictInks x (.name s) =
          .err (.ConstraintViolation "opiDictV20" "Inks")) ∧
    (∀ x : XRefTable, validateOPIDictInks x (.name "full_color") = .ok () ∧
        validateOPIDictInks x (.name "registration") = .ok ()) ∧
    (∀ (x : XRefTable) (l : List PDFObject),
        validateOPIDictInks x (.array l) = .ok ()) ∧
    (∀ (x : XRefTable) (i : Int),
        validateOPIDictInks x (.integer i) =
          .err (.TypeMismatch "opiDictV20" "Inks")) ∧
    (∀ s : String, s ≠ "full_color" → s ≠ "registration" →
        validateOPIDictV20 xStd
          [("Version", .float (mkRat 2 1)), ("F", .stringLit "p.eps"),
           ("Inks", .name s)] =
          .err (.ConstraintViolation "opiDictV20" "Inks")) := by
  refine ⟨?_, ?_, ?_, ?_, ?_, ?_, ?_, ?_, ?_⟩
  · intro x d h
    simp [validateOPIVersionDict, h]
  · intro x k v h1 h2
    simp [validateOPIVersionDict, memberOf, h1, h2]
  · intro x v d' h
    simp [validateOPIVersionDict, memberOf, h]
  · intro x v d' h
    simp [validateOPIVersionDict, memberOf, h]
  · intro x s h1 h2
    simp [validateOPIDictInks, XRefTable.dereference, h1, h2]
  · intro x
    constructor <;> rfl
  · intro x l
    rfl
  · intro x i
    rfl
  · intro s h1 h2
    simp [validateOPIDictV20, validateNameEntry, validateNumberEntry,
      validateStringEntry, validateTypedEntry, validateFileSpecEntry,
      validateArrayEntry, validateNumberArrayEntry, validateKindArrayEntry,
      validateRectangleEntry, validateBooleanEntry, validateOPIDictInks,
      lookupEntry, XRefTable.dereference, decodeName, decodeNumber,
      decodeString, decodeBoolean, decodeArray, xStd, versionLE,
      PDFVersion.toNat, REQUIRED, OPTIONAL, h1, h2]

/-- Witness: the amended C2 theorem applied at a concrete bogus colorant. -/
theorem opiVersionDictAmendedWitness :
    validateOPIDictV20 xStd
      [("Version", .float (mkRat 2 1)), ("F", .stringLit "p.eps"),
       ("Inks", .name "bogus")] =
      .err (.ConstraintViolation "opiDictV20" "Inks") :=
  opiVersionDictAmended.2.2.2.2.2.2.2.2 "bogus" (by decide) (by decide)

/-- C6: the external-object entry point applied to a reference that
resolves to no object: the guard after dereferencing checks the input
instead of the dereferenced result, so the nil stream header is accessed
and the call crashes instead of returning success or a validation error. -/
theorem xobjectNullRefPanics :
    ∀ fuel, validateXObjectStreamDict fuel xStd (.indirectRef 5) =
      VRes.panic := fun _ => rfl

/-- A dict whose Mask entry is a nested image stream that is itself an
image mask (ImageMask true). -/
def maskIsImageMaskDict : PDFDict :=
  [("Mask", .stream [("Subtype", .name "Image"), ("Width", .integer 1),
     ("Height", .integer 1), ("ImageMask", .boolean true),
     ("BitsPerComponent", .integer 1)] [])]

/-- C3 counterexample: a Mask entry holding a nested image that is itself
an image mask validates successfully, so the claim that the nested image
is forbidden from being an image mask fails at this input. -/
theorem maskImageMaskAcceptedCounterexample :
    validateMaskEntry 2 xStd maskIsImageMaskDict "imageStreamDict" "Mask"
      OPTIONAL .V13 = .ok () := rfl

/-- Classifier for the runtime kinds a Mask entry accepts (stream, array)
or treats as absent (null). -/
def isMaskKind : PDFObject → Bool
  | .stream _ _ => true
  | .array _ => true
  | .null => true
  | _ => false

/-- C3 amended: a present Mask entry on a non-mask image is either a
nested image stream, validated recursively as a full image object after a
Type and Subtype check, with no prohibition on the nested image being an
image mask or carrying its own Mask entry; or an array, not descended
into; any other runtime kind fails TypeMismatch. On an image object that
is an image mask, the Mask entry is skipped, not validated. -/
theorem maskEntryAmended :
    (∀ (fuel : Nat) (x : XRefTable) (d : PDFDict) (n e : String) (req : Bool)
       (since : PDFVersion) (es : PDFDict) (fl : List String),
        lookupEntry d e = some (.stream es fl) →
        versionLE since x.version = true →
        validateMaskEntry fuel x d n e req since =
          validateMaskStreamDict fuel x ⟨es, fl⟩) ∧
    (∀ (fuel : Nat) (x : XRefTable) (sd : PDFStreamDict),
        (sd.typeName = none ∨ sd.typeName = some "XObject") →
        sd.subtypeName = some "Image" →
        validateMaskStreamDict fuel x sd = validateImageStreamDict fuel x sd false) ∧
    (∀ (fuel : Nat) (x : XRefTable) (d : PDFDict) (n e : String) (req : Bool)
       (since : PDFVersion) (l : List PDFObject),
        lookupEntry d e = some (.array l) →
        versionLE since x.version = true →
        validateMaskEntry fuel x d n e req since = .ok ()) ∧
    (∀ (fuel : Nat) (x : XRefTable) (d : PDFDict) (n e : String) (req : Bool)
       (since : PDFVersion) (v : PDFObject),
        lookupEntry d e = some v →
        isMaskKind (x.dereference v) = false →
        versionLE since x.version = true →
        validateMaskEntry fuel x d n e req since = .err (.TypeMismatch n e)) ∧
    (∀ (fuel : Nat) (x : XRefTable) (sd : PDFStreamDict) (n : String)
       (alt : Bool) (b : Option Int) (intent : Option String)
       (dec : Option (List PDFObject)) (interp : Option Bool),
        validateIntegerEntry x sd.entries n "BitsPerComponent" false .V10
          (some (fun i => decide (i = 1))) = .ok b →
        validateNameEntry x sd.entries n "Intent" false .V11
          (some (fun s => memberOf s
            ["AbsoluteColorimetric", "RelativeColorimetric", "Saturation",
             "Perceptual"])) = .ok intent →
        validateNumberArrayEntry x sd.entries n "Decode" false .V10 none = .ok dec →
        validateBooleanEntry x sd.entries n "Interpolate" false .V10 none = .ok interp →
        (alt = false →
          validateAlternateImageStreamDicts fuel x sd.entries n "Alternates"
            false .V13 = .ok ()) →
        validateImageStreamDictPart2 fuel x sd n true alt = .ok ()) := by
  refine ⟨?_, ?_, ?_, ?_, ?_⟩
  · intro fuel x d n e req since es fl h hv
    cases hm : x.mode <;>
      simp [validateMaskEntry, validateMaskEntryF, validateMaskStreamDict,
        validateEntry, XRefTable.dereference, h, hv, hm]
  · intro fuel x sd ht hs
    rcases ht with ht | ht <;>
      simp [validateMaskStreamDict, validateMaskStreamDictF, ht, hs,
        isNoAlternateImageStreamDict]
  · intro fuel x d n e req since l h hv
    cases hm : x.mode <;>
      simp [validateMaskEntry, validateMaskEntryF, validateEntry,
        XRefTable.dereference, h, hv, hm]
  · intro fuel x d n e req since v h hk hv
    cases hm : x.mode <;>
      simp only [validateMaskEntry, validateMaskEntryF, validateEntry, h, hm, hv] <;>
      cases hw : x.dereference v <;>
      simp_all [isMaskKind]
  · intro fuel x sd n alt b intent dec interp h1 h2 h3 h4 h5
    cases alt with
    | true =>
        simp [validateImageStreamDictPart2, validateImageStreamDictPart2F,
          OPTIONAL, REQUIRED, h1, h2, h3, h4]
    | false =>
        have h5' := h5 rfl
        simp only [validateAlternateImageStreamDicts] at h5'
        simp [validateImageStreamDictPart2, validateImageStreamDictPart2F,
          OPTIONAL, REQUIRED, h1, h2, h3, h4, h5']

/-- Witness: the amended C3 theorem applied at a concrete color-key mask
array. -/
theorem maskEntryAmendedWitness :
    validateMaskEntry 1 xStd [("Mask", .array [])] "imageStreamDict" "Mask"
      false .V13 = .ok () :=
  maskEntryAmended.2.2.1 1 xStd [("Mask", .array [])] "imageStreamDict"
    "Mask" false .V13 [] rfl rfl

/-- An alternate image dict that itself carries a non-empty Alternates
entry (whose value would even fail validation if it were descended into). -/
def altWithNestedAlternates : PDFDict :=
  [("Width", .integer 1), ("Height", .integer 1),
   ("ColorSpace", .name "DeviceRGB"), ("BitsPerComponent", .integer 8),
   ("Alternates", .array [.integer 7])]

/-- An image whose Alternates array holds the alternate above. -/
def imageWithAlternates : PDFStreamDict :=
  ⟨[("Width", .integer 1), ("Height", .integer 1),
    ("ColorSpace", .name "DeviceRGB"), ("BitsPerComponent", .integer 8),
    ("Alternates", .array [.stream altWithNestedAlternates []])], []⟩

/-- C4 counterexample: an image whose Alternates elements each carry a
non-empty Alternates entry validates successfully (the nested entry is
never looked at), so the claim that such input fails at this input. -/
theorem alternatesNestedAcceptedCounterexample :
    validateImageStreamDict 3 xStd imageWithAlternates false = .ok () := rfl

/-- C4 amended: elements of an Alternates array are validated with the
is-alternate flag, which suppresses (skips entirely, rather than rejects)
their own Alternates entry; a single level of alternates whose elements
validate succeeds. -/
theorem alternatesSuppressedAmended :
    (∀ (fuel : Nat) (x : XRefTable) (sd : PDFStreamDict) (n : String)
       (im : Bool) (b : Option Int) (intent : Option String)
       (dec : Option (List PDFObject)) (interp : Option Bool),
        validateIntegerEntry x sd.entries n "BitsPerComponent"
          (if sd.hasSoleFilterNamed filterJPX || im then false else true) .V10
          (if im then some (fun i => decide (i = 1)) else none) = .ok b →
        validateNameEntry x sd.entries n "Intent" false .V11
          (some (fun s => memberOf s
            ["AbsoluteColorimetric", "RelativeColorimetric", "Saturation",
             "Perceptual"])) = .ok intent →
        (im = false →
          validateMaskEntry fuel x sd.entries n "Mask" false .V13 = .ok ()) →
        validateNumberArrayEntry x sd.entries n "Decode" false .V10 none = .ok dec →
        validateBooleanEntry x sd.entries n "Interpolate" false .V10 none = .ok interp →
        validateImageStreamDictPart2 fuel x sd n im true = .ok ()) ∧
    (∀ (fuel : Nat) (x : XRefTable) (d : PDFDict) (n e : String)
       (arr : List PDFObject),
        validateArrayEntry x d n e false .V13 none = .ok (some arr) →
        (∀ o ∈ arr, validateAlternateElem fuel x o = .ok ()) →
        validateAlternateImageStreamDicts fuel x d n e false .V13 = .ok ()) ∧
    (∀ (fuel : Nat) (x : XRefTable) (o : PDFObject) (es : PDFDict)
       (fl : List String),
        x.dereference o = .stream es fl →
        validateAlternateElem fuel x o =
          validateImageStreamDict fuel x ⟨es, fl⟩ true) := by
  refine ⟨?_, ?_, ?_⟩
  · intro fuel x sd n im b intent dec interp h1 h2 h3 h4 h5
    cases im with
    | true =>
        simp only [Bool.or_true] at h1
        simp at h1
        simp [validateImageStreamDictPart2, validateImageStreamDictPart2F,
          OPTIONAL, REQUIRED, h1, h2, h4, h5]
    | false =>
        have h3' := h3 rfl
        simp only [validateMaskEntry] at h3'
        simp only [Bool.or_false] at h1
        simp at h1
        simp [validateImageStreamDictPart2, validateImageStreamDictPart2F,
          OPTIONAL, REQUIRED, h1, h2, h3', h4, h5]
  · intro fuel x d n e arr h1 h2
    simp [validateAlternateImageStreamDicts,
      validateAlternateImageStreamDictsF, h1]
    exact alternatesLoop_ok (validateImageStreamDict fuel) x arr
      (fun o ho => h2 o ho)
  · intro fuel x o es fl h
    simp [validateAlternateElem, validateAlternateElemF, validateStreamDict,
      h, isAlternateImageStreamDict]

/-- Witness: the amended C4 theorem applied at a concrete direct stream
element. -/
theorem alternatesSuppressedAmendedWitness :
    validateAlternateElem 1 xStd (.stream [] []) =
      validateImageStreamDict 1 xStd ⟨[], []⟩ true :=
  alternatesSuppressedAmended.2.2 1 xStd (.stream [] []) [] [] rfl

/-- C5: external-object dispatch follows the declared Subtype: Form goes
to the form validator, Image to the image validator, PS is a terminal
UnsupportedConstruct failure regardless of mode, any other name fails
UnknownSubtype; Subtype is required unless the mode is relaxed, and when
absent in relaxed mode a BBox key selects the form validator, else the
image validator. -/
theorem xobjectDispatch :
    ∀ (fuel : Nat) (x : XRefTable) (es : PDFDict) (fl : List String)
      (t : Option String),
      validateNameEntry x es "xObjectStreamDict" "Type" false .V10
        (some (fun s => decide (s = "XObject"))) = .ok t →
      ((lookupEntry es "Subtype" = some (.name "PS") →
          validateXObjectStreamDict fuel x (.stream es fl) =
            .err (.UnsupportedConstruct "PS")) ∧
       (∀ s : String, lookupEntry es "Subtype" = some (.name s) →
          s ≠ "Form" → s ≠ "Image" → s ≠ "PS" →
          validateXObjectStreamDict fuel x (.stream es fl) =
            .err (.UnknownSubtype s)) ∧
       (lookupEntry es "Subtype" = some (.name "Form") →
          validateXObjectStreamDict fuel x (.stream es fl) =
            validateFormStreamDict x ⟨es, fl⟩) ∧
       (lookupEntry es "Subtype" = some (.name "Image") →
          validateXObjectStreamDict fuel x (.stream es fl) =
            validateImageStreamDict fuel x ⟨es, fl⟩ false) ∧
       (lookupEntry es "Subtype" = none → x.mode = .strict →
          validateXObjectStreamDict fuel x (.stream es fl) =
            .err (.MissingRequiredEntry "xObjectStreamDict" "Subtype")) ∧
       (lookupEntry es "Subtype" = none → x.mode = .relaxed →
          ∀ bb : PDFObject, lookupEntry es "BBox" = some bb →
          validateXObjectStreamDict fuel x (.stream es fl) =
            validateFormStreamDict x ⟨es, fl⟩) ∧
       (lookupEntry es "Subtype" = none → x.mode = .relaxed →
          lookupEntry es "BBox" = none →
          validateXObjectStreamDict fuel x (.stream es fl) =
            validateImageStreamDict fuel x ⟨es, fl⟩ false)) := by
  intro fuel x es fl t hType
  refine ⟨?_, ?_, ?_, ?_, ?_, ?_, ?_⟩
  · intro h
    cases hm : x.mode <;>
    · simp only [validateXObjectStreamDict, XRefTable.dereferenceStreamDict,
        XRefTable.dereference, vres_bind_eq, vres_bind_ok, OPTIONAL,
        REQUIRED, hm]
      rw [hType]
      simp [validateNameEntry, validateTypedEntry, decodeName, h, hm,
        XRefTable.dereference, isNoAlternateImageStreamDict]
  · intro s h h1 h2 h3
    cases hm : x.mode <;>
    · simp only [validateXObjectStreamDict, XRefTable.dereferenceStreamDict,
        XRefTable.dereference, vres_bind_eq, vres_bind_ok, OPTIONAL,
        REQUIRED, hm]
      rw [hType]
      simp [validateNameEntry, validateTypedEntry, decodeName, h, h1, h2, h3,
        hm, XRefTable.dereference, isNoAlternateImageStreamDict]
  · intro h
    cases hm : x.mode <;>
    · simp only [validateXObjectStreamDict, XRefTable.dereferenceStreamDict,
        XRefTable.dereference, vres_bind_eq, vres_bind_ok, OPTIONAL,
        REQUIRED, hm]
      rw [hType]
      simp [validateNameEntry, validateTypedEntry, decodeName, h, hm,
        XRefTable.dereference, isNoAlternateImageStreamDict]
  · intro h
    cases hm : x.mode <;>
    · simp only [validateXObjectStreamDict, XRefTable.dereferenceStreamDict,
        XRefTable.dereference, vres_bind_eq, vres_bind_ok, OPTIONAL,
        REQUIRED, hm]
      rw [hType]
      simp [validateNameEntry, validateTypedEntry, decodeName, h, hm,
        XRefTable.dereference, isNoAlternateImageStreamDict]
  · intro h hm
    simp only [validateXObjectStreamDict, XRefTable.dereferenceStreamDict,
      XRefTable.dereference, vres_bind_eq, vres_bind_ok, OPTIONAL,
      REQUIRED, hm]
    rw [hType]
    simp [validateNameEntry, validateTypedEntry, decodeName, h, hm,
      XRefTable.dereference, isNoAlternateImageStreamDict]
  · intro h hm bb hbb
    simp only [validateXObjectStreamDict, XRefTable.dereferenceStreamDict,
      XRefTable.dereference, vres_bind_eq, vres_bind_ok, OPTIONAL,
      REQUIRED, hm]
    rw [hType]
    simp [validateNameEntry, validateTypedEntry, decodeName, h, hbb, hm,
      XRefTable.dereference, isNoAlternateImageStreamDict]
  · intro h hm hbb
    simp only [validateXObjectStreamDict, XRefTable.dereferenceStreamDict,
      XRefTable.dereference, vres_bind_eq, vres_bind_ok, OPTIONAL,
      REQUIRED, hm]
    rw [hType]
    simp [validateNameEntry, validateTypedEntry, decodeName, h, hbb, hm,
      XRefTable.dereference, isNoAlternateImageStreamDict]

/-- Witness: the C5 dispatch theorem applied at a concrete PS subtype. -/
theorem xobjectDispatchWitness :
    validateXObjectStreamDict 1 xStd (.stream [("Subtype", .name "PS")] []) =
      .err (.UnsupportedConstruct "PS") :=
  (xobjectDispatch 1 xStd [("Subtype", .name "PS")] [] none rfl).1 rfl

/-- C7: on an image mask, BitsPerComponent must be absent or exactly 1
(any other integer fails ConstraintViolation, and the remaining checks
succeed when it is absent or 1); on a non-mask whose sole filter is not
JPX, BitsPerComponent is required and its absence fails
MissingRequiredEntry. -/
theorem bitsPerComponentRules :
    (∀ (fuel : Nat) (x : XRefTable) (es : PDFDict) (fl : List String)
       (n : String) (alt : Bool) (i : Int),
        lookupEntry es "BitsPerComponent" = some (.integer i) → i ≠ 1 →
        validateImageStreamDictPart2 fuel x ⟨es, fl⟩ n true alt =
          .err (.ConstraintViolation n "BitsPerComponent")) ∧
    (∀ (fuel : Nat) (x : XRefTable) (es : PDFDict) (fl : List String)
       (n : String) (alt : Bool),
        lookupEntry es "BitsPerComponent" = none →
        PDFStreamDict.hasSoleFilterNamed ⟨es, fl⟩ filterJPX = false →
        validateImageStreamDictPart2 fuel x ⟨es, fl⟩ n false alt =
          .err (.MissingRequiredEntry n "BitsPerComponent")) ∧
    (∀ (fuel : Nat) (x : XRefTable) (es : PDFDict) (fl : List String)
       (n : String) (alt : Bool) (intent : Option String)
       (dec : Option (List PDFObject)) (interp : Option Bool),
        (lookupEntry es "BitsPerComponent" = none ∨
         lookupEntry es "BitsPerComponent" = some (.integer 1)) →
        validateNameEntry x es n "Intent" false .V11
          (some (fun s => memberOf s
            ["AbsoluteColorimetric", "RelativeColorimetric", "Saturation",
             "Perceptual"])) = .ok intent →
        validateNumberArrayEntry x es n "Decode" false .V10 none = .ok dec →
        validateBooleanEntry x es n "Interpolate" false .V10 none = .ok interp →
        (alt = false →
          validateAlternateImageStreamDicts fuel x es n "Alternates" false
            .V13 = .ok ()) →
        validateImageStreamDictPart2 fuel x ⟨es, fl⟩ n true alt = .ok ()) := by
  refine ⟨?_, ?_, ?_⟩
  · intro fuel x es fl n alt i h hne
    simp [validateImageStreamDictPart2, validateImageStreamDictPart2F,
      OPTIONAL, REQUIRED, validateIntegerEntry, validateTypedEntry,
      XRefTable.dereference, decodeInteger, h, hne]
  · intro fuel x es fl n alt h hJ
    simp [validateImageStreamDictPart2, validateImageStreamDictPart2F,
      OPTIONAL, REQUIRED, validateIntegerEntry, validateTypedEntry,
      XRefTable.dereference, decodeInteger, h, hJ]
  · intro fuel x es fl n alt intent dec interp hb h2 h3 h4 h5
    rcases hb with hb | hb <;>
      (cases alt with
       | true =>
           cases hm : x.mode <;>
             simp [validateImageStreamDictPart2, validateImageStreamDictPart2F,
               OPTIONAL, REQUIRED, validateIntegerEntry, validateTypedEntry,
               XRefTable.dereference, decodeInteger, hb, h2, h3, h4, hm]
       | false =>
           have h5' := h5 rfl
           simp only [validateAlternateImageStreamDicts] at h5'
           cases hm : x.mode <;>
             simp [validateImageStreamDictPart2, validateImageStreamDictPart2F,
               OPTIONAL, REQUIRED, validateIntegerEntry, validateTypedEntry,
               XRefTable.dereference, decodeInteger, hb, h2, h3, h4, h5', hm])

/-- Witness: the C7 theorem applied at BitsPerComponent 2 on an image
mask. -/
theorem bitsPerComponentRulesWitness :
    validateImageStreamDictPart2 1 xStd
      ⟨[("BitsPerComponent", .integer 2)], []⟩ "imageStreamDict" true false =
      .err (.ConstraintViolation "imageStreamDict" "BitsPerComponent") :=
  bitsPerComponentRules.1 1 xStd [("BitsPerComponent", .integer 2)] []
    "imageStreamDict" false 2 rfl (by decide)

/-- C8: for a non-mask image, ColorSpace is required unless the sole
filter is the JPX codec, or the sole filter is CCITTFax under relaxed
mode; a pattern color space is always rejected; and on an image mask no
ColorSpace check happens at all (the entry may hold anything). -/
theorem colorSpaceRules :
    ∀ (x : XRefTable) (es : PDFDict) (fl : List String) (n : String)
      (w h : Option Int) (im : Option Bool),
      validateIntegerEntry x es n "Width" true .V10 none = .ok w →
      validateIntegerEntry x es n "Height" true .V10 none = .ok h →
      validateBooleanEntry x es n "ImageMask" false .V10 none = .ok im →
      ((im = some true → validateImageStreamDictPart1 x ⟨es, fl⟩ n = .ok true) ∧
       (im ≠ some true → lookupEntry es "ColorSpace" = none →
          PDFStreamDict.hasSoleFilterNamed ⟨es, fl⟩ filterJPX = true →
          validateImageStreamDictPart1 x ⟨es, fl⟩ n = .ok false) ∧
       (im ≠ some true → lookupEntry es "ColorSpace" = none →
          PDFStreamDict.hasSoleFilterNamed ⟨es, fl⟩ filterCCITTFax = true →
          x.mode = .relaxed →
          validateImageStreamDictPart1 x ⟨es, fl⟩ n = .ok false) ∧
       (im ≠ some true → lookupEntry es "ColorSpace" = none →
          PDFStreamDict.hasSoleFilterNamed ⟨es, fl⟩ filterJPX = false →
          (PDFStreamDict.hasSoleFilterNamed ⟨es, fl⟩ filterCCITTFax = false ∨
           x.mode = .strict) →
          validateImageStreamDictPart1 x ⟨es, fl⟩ n =
            .err (.MissingRequiredEntry n "ColorSpace")) ∧
       (im ≠ some true → lookupEntry es "ColorSpace" = some (.name "Pattern") →
          validateImageStreamDictPart1 x ⟨es, fl⟩ n =
            .err (.ConstraintViolation n "ColorSpace"))) := by
  intro x es fl n w h im hW hH hIM
  refine ⟨?_, ?_, ?_, ?_, ?_⟩
  · intro him
    simp [validateImageStreamDictPart1, OPTIONAL, REQUIRED, hW, hH, hIM, him]
  · intro him hcs hJ
    have hfl : fl = [filterJPX] := by
      simpa [PDFStreamDict.hasSoleFilterNamed] using hJ
    subst hfl
    simp [validateImageStreamDictPart1, validateColorSpaceEntry,
      PDFStreamDict.hasSoleFilterNamed, OPTIONAL, REQUIRED, ExcludePatternCS,
      hW, hH, hIM, him, hcs]
  · intro him hcs hC hm
    have hfl : fl = [filterCCITTFax] := by
      simpa [PDFStreamDict.hasSoleFilterNamed] using hC
    subst hfl
    simp [validateImageStreamDictPart1, validateColorSpaceEntry,
      PDFStreamDict.hasSoleFilterNamed, OPTIONAL, REQUIRED, ExcludePatternCS,
      filterJPX, filterCCITTFax, hW, hH, hIM, him, hcs, hm]
  · intro him hcs hJ hdisj
    rcases hdisj with hC | hm
    · simp [validateImageStreamDictPart1, validateColorSpaceEntry,
        OPTIONAL, REQUIRED, ExcludePatternCS, hW, hH, hIM, him, hcs, hJ, hC]
    · simp [validateImageStreamDictPart1, validateColorSpaceEntry,
        OPTIONAL, REQUIRED, ExcludePatternCS, hW, hH, hIM, him, hcs, hJ, hm]
  · intro him hcs
    simp [validateImageStreamDictPart1, validateColorSpaceEntry,
      XRefTable.dereference, OPTIONAL, REQUIRED, ExcludePatternCS,
      hW, hH, hIM, him, hcs]

/-- Witness: the C8 theorem applied at a plain unfiltered image with no
ColorSpace. -/
theorem colorSpaceRulesWitness :
    validateImageStreamDictPart1 xStd
      ⟨[("Width", .integer 1), ("Height", .integer 1)], []⟩ "imageStreamDict" =
      .err (.MissingRequiredEntry "imageStreamDict" "ColorSpace") :=
  (colorSpaceRules xStd [("Width", .integer 1), ("Height", .integer 1)] []
      "imageStreamDict" (some 1) (some 1) none rfl rfl rfl).2.2.2.1
    (by decide) rfl rfl (Or.inr rfl)

/-- C9: a form object with PieceInfo but no LastModified fails
MissingDependentEntry; one with both StructParent and StructParents fails
ConflictingEntries; with neither of those and no PieceInfo (and no other
entries engaging later checks) the cross-field checks succeed. -/
theorem formCrossFieldRules :
    (∀ (x : XRefTable) (d : PDFDict) (n : String) (pes : PDFDict),
        lookupEntry d "PieceInfo" = some (.dict pes) →
        lookupEntry d "LastModified" = none →
        versionLE .V13 x.version = true →
        validateFormStreamDictPart2 x d n =
          .err (.MissingDependentEntry n "LastModified")) ∧
    (∀ (x : XRefTable) (d : PDFDict) (n : String) (a b : Int),
        lookupEntry d "PieceInfo" = none →
        lookupEntry d "LastModified" = none →
        lookupEntry d "StructParent" = some (.integer a) →
        lookupEntry d "StructParents" = some (.integer b) →
        versionLE .V13 x.version = true →
        validateFormStreamDictPart2 x d n = .err (.ConflictingEntries n)) ∧
    (∀ (x : XRefTable) (d : PDFDict) (n : String),
        lookupEntry d "PieceInfo" = none →
        lookupEntry d "StructParent" = none →
        lookupEntry d "StructParents" = none →
        lookupEntry d "LastModified" = none →
        lookupEntry d "OPI" = none →
        lookupEntry d "OC" = none →
        lookupEntry d "Name" = none →
        x.version ≠ .V10 →
        validateFormStreamDictPart2 x d n = .ok ()) := by
  refine ⟨?_, ?_, ?_⟩
  · intro x d n pes hpi hlm hv
    cases hm : x.mode <;>
      simp [validateFormStreamDictPart2, validatePieceInfo, validateDateEntry,
        validateTypedEntry, XRefTable.dereference, OPTIONAL, REQUIRED,
        hpi, hlm, hv, hm]
  · intro x d n a b hpi hlm hsp hsps hv
    cases hm : x.mode <;>
      simp [validateFormStreamDictPart2, validatePieceInfo, validateDateEntry,
        validateIntegerEntry, validateTypedEntry, XRefTable.dereference,
        decodeInteger, OPTIONAL, REQUIRED, hpi, hlm, hsp, hsps, hv, hm]
  · intro x d n hpi hsp hsps hlm hopi hoc hname hv
    cases hm : x.mode <;>
      simp [validateFormStreamDictPart2, validatePieceInfo, validateDateEntry,
        validateIntegerEntry, validateNameEntry, validateTypedEntry,
        validateEntryOPI, validateDictEntry, validateOptionalContent,
        XRefTable.dereference, decodeInteger, decodeName, decodeDict,
        OPTIONAL, REQUIRED, hpi, hlm, hsp, hsps, hopi, hoc, hname, hv, hm]

/-- Witness: the C9 theorem applied at a concrete PieceInfo-only form
dict. -/
theorem formCrossFieldRulesWitness :
    validateFormStreamDictPart2 xStd [("PieceInfo", .dict [])]
      "formStreamDict" =
      .err (.MissingDependentEntry "formStreamDict" "LastModified") :=
  formCrossFieldRules.1 xStd [("PieceInfo", .dict [])] "formStreamDict" []
    rfl rfl rfl

/-- C10: entries resolving to the null object are treated as absent and
accepted: a Reference dict whose required Page entry resolves to null
validates successfully, an OPI version dict whose sole 1.3 entry resolves
to null validates successfully, and a null-resolving Alternates element is
skipped without error. -/
theorem nullTreatedAsAbsent :
    (∀ (x : XRefTable) (d : PDFDict) (fv : Option PDFObject) (v : PDFObject),
        validateFileSpecEntry x d "refDict" "F" true .V10 = .ok fv →
        lookupEntry d "Page" = some v →
        x.dereference v = .null →
        lookupEntry d "ID" = none →
        validateReferenceDict x d = .ok ()) ∧
    (∀ (x : XRefTable) (v : PDFObject),
        x.dereferenceDict v = .ok none →
        validateOPIVersionDict x [("1.3", v)] = .ok ()) ∧
    (∀ (fuel : Nat) (x : XRefTable) (o : PDFObject),
        x.dereference o = .null →
        validateAlternateElem fuel x o = .ok ()) := by
  refine ⟨?_, ?_, ?_⟩
  · intro x d fv v hF hPage hnull hID
    simp [validateReferenceDict, validateReferenceDictPageEntry,
      validateStringArrayEntry, validateKindArrayEntry, validateArrayEntry,
      validateTypedEntry, REQUIRED, OPTIONAL, hF, hPage, hnull, hID]
  · intro x v h
    simp [validateOPIVersionDict, memberOf, h]
  · intro fuel x o h
    simp [validateAlternateElem, validateAlternateElemF, validateStreamDict, h]

/-- Witness: the C10 theorem applied at a Page entry referencing a missing
object. -/
theorem nullTreatedAsAbsentWitness :
    validateReferenceDict xStd
      [("F", .stringLit "f"), ("Page", .indirectRef 3)] = .ok () :=
  nullTreatedAsAbsent.1 xStd [("F", .stringLit "f"), ("Page", .indirectRef 3)]
    (some (.stringLit "f")) (.indirectRef 3) rfl rfl rfl rfl

end PdfValidate
